import Mathlib

/-!
Shallow embedding of the Notion knowledge-ingestor (src/main.py, with the
class-based variant in src/notion.py being line-for-line identical logic).

The store (Notion API) and the system clock are modelled as an explicit
environment `Store`; the `functools.cache` memoization of
`get_or_create_entity` is modelled as an explicit association list threaded
through the calls, keyed — as `functools.cache` keys it — on the raw
argument string.  Every store call is recorded in an event trace so that
claims about "number of store interactions" can be stated.  Python
exceptions are modelled with `Except`: an exception class that a given
`try/except` does not catch is returned as `Except.error` and propagates.
-/

/-- One rendered Notion block (src/main.py `create_code_blocks`): the
`object`, `type` and `language` fields are the literal strings of the
source; `content` is the chunk text. -/
structure Block where
  obj : String
  type : String
  language : String
  content : String
deriving DecidableEq, Repr

/-- Character-list chunker underlying `split_into_chunks`: chunk size is
`k + 1` (so it is positive, as in the source where the size is 1900).
Mirrors `[text[i : i + chunk_size] for i in range(0, len(text), chunk_size)]`. -/
def chunksAux (k : Nat) : List Char → List (List Char)
  | [] => []
  | c :: cs => List.take (k + 1) (c :: cs) :: chunksAux k (List.drop (k + 1) (c :: cs))
termination_by cs => cs.length
decreasing_by simp [List.length_drop]; omega

/-- src/main.py `split_into_chunks(text, chunk_size=1900)`.  The source only
ever calls it with a positive chunk size (1900); a zero size would raise in
the `range` call in Python and never occurs, so that case is mapped to `[]`. -/
def split_into_chunks (text : String) (chunk_size : Nat := 1900) : List String :=
  if chunk_size = 0 then []
  else (chunksAux (chunk_size - 1) text.data).map String.mk

/-- src/main.py `create_code_blocks(chunks)`. -/
def create_code_blocks (chunks : List String) : List Block :=
  chunks.map fun chunk =>
    { obj := "block", type := "code", language := "markdown", content := chunk }

/-- src/main.py `prepare_summary_blocks(text)`. -/
def prepare_summary_blocks (text : String) : List Block :=
  create_code_blocks (split_into_chunks text 1900)

/-- Outcome of a `pages.create` call for a snippet: success with a response
id, an `APIResponseError` (the typed Notion API error), or any other
exception (transport error, etc.), which the `except APIResponseError`
clause of `create_snippet` does not catch. -/
inductive NoteOutcome where
  | ok (respId : String)
  | apiError
  | exn
deriving DecidableEq, Repr

/-- The `properties` payload `create_snippet` sends to `pages.create`
(src/main.py lines 244-268).  `eventDate`, `startDate`, `endDate` are `none`
when the corresponding key is absent from the payload. -/
structure NoteProps where
  context : String
  source : String
  entities : List String
  addingDate : String
  eventDate : Option String
  startDate : Option String
  endDate : Option String
deriving DecidableEq, Repr

/-- The `properties` payload `create_media` sends to `pages.create`,
together with the `children` summary blocks (src/main.py lines 199-215). -/
structure MediaProps where
  title : String
  mediaType : String
  author : String
  url : String
  publishingDate : String
  addingDate : String
  status : String
  children : List Block
deriving DecidableEq, Repr

/-- The environment around the program: the Notion store plus the clock.
`entityQuery name` returns `none` when the query call raises (caught by
`get_or_create_entity`, falling through to creation) and `some ids` for a
successful query returning the ids of the result pages (`response["results"]`).
`entityCreate` returns `none` when creation raises (either exception class —
both are caught and yield `None`).  `mediaCreate` returns `none` when the
media create raises (again both classes are caught).  `noteCreate`
distinguishes the typed `APIResponseError` from other exceptions because
`create_snippet` catches only the former.  `today` is `get_today_iso()`. -/
structure Store where
  entityQuery : String → Option (List String)
  entityCreate : String → Option String
  mediaCreate : MediaProps → Option String
  noteCreate : NoteProps → NoteOutcome
  today : String

/-- One recorded store interaction, with the answer of the store. -/
inductive Event where
  | entityQuery (name : String)
  | entityCreate (name : String) (res : Option String)
  | mediaCreate (props : MediaProps) (res : Option String)
  | noteCreate (props : NoteProps) (res : NoteOutcome)
deriving DecidableEq, Repr

/-- Python truthiness of an optional string (`if snippet[...].get(key):`,
`if not name:`, `if linked_entity:`): `None` and `""` are falsy, every other
string is truthy. -/
def truthy : Option String → Bool
  | none => false
  | some s => s != ""

/-- The memoization table of `functools.cache`, keyed on the raw argument
string exactly as passed (the decorator sees the argument before the
`name.strip()` in the function body runs), mapping it to the cached return
value. -/
abbrev Cache := List (String × Option String)

/-- Number of entity-query calls in a trace. -/
def countQueries (evs : List Event) : Nat :=
  evs.countP fun e => match e with | Event.entityQuery _ => true | _ => false

/-- Number of entity-create calls in a trace. -/
def countEntityCreates (evs : List Event) : Nat :=
  evs.countP fun e => match e with | Event.entityCreate _ _ => true | _ => false

/-- Number of media-create calls in a trace. -/
def countMediaCreates (evs : List Event) : Nat :=
  evs.countP fun e => match e with | Event.mediaCreate _ _ => true | _ => false

/-- Number of note-create calls in a trace. -/
def countNoteCreates (evs : List Event) : Nat :=
  evs.countP fun e => match e with | Event.noteCreate _ _ => true | _ => false

/-- The payloads of the note-create calls in a trace, in order. -/
def notePayloads (evs : List Event) : List NoteProps :=
  evs.filterMap fun e => match e with | Event.noteCreate p _ => some p | _ => none

/-- The outcomes of the note-create calls in a trace, in order. -/
def noteResults (evs : List Event) : List NoteOutcome :=
  evs.filterMap fun e => match e with | Event.noteCreate _ r => some r | _ => none

/-- The results of the media-create calls in a trace, in order. -/
def mediaResults (evs : List Event) : List (Option String) :=
  evs.filterMap fun e => match e with | Event.mediaCreate _ r => some r | _ => none

/-- The `str.strip()` method of Python: remove leading and trailing whitespace.
(Defined over the character list so it evaluates by `decide`/`rfl`.) -/
def pyStrip (s : String) : String :=
  String.mk (((s.data.dropWhile Char.isWhitespace).reverse.dropWhile
    Char.isWhitespace).reverse)

/-- Body of src/main.py `get_or_create_entity` (lines 119-184), i.e. what
runs on a `functools.cache` miss: strip the name, short-circuit on empty,
query the entities table (any exception is caught and falls through to
creation, as does an empty result list), else create the entity (any
exception during creation is caught and yields `None`). -/
def get_or_create_entity_body (st : Store) (name : String) :
    Option String × List Event :=
  let name := pyStrip name
  if name = "" then (none, [])
  else
    match st.entityQuery name with
    | some (entity_id :: _) => (some entity_id, [Event.entityQuery name])
    | some [] =>
        let r := st.entityCreate name
        (r, [Event.entityQuery name, Event.entityCreate name r])
    | none =>
        let r := st.entityCreate name
        (r, [Event.entityQuery name, Event.entityCreate name r])

/-- Lookup in the memoization table by exact (raw) string key. -/
def cacheFind : Cache → String → Option (Option String)
  | [], _ => none
  | p :: rest, name => if p.1 = name then some p.2 else cacheFind rest name

/-- src/main.py `get_or_create_entity` with its `@functools.cache`
decorator: the cache is consulted with the raw argument string before the
body runs; on a miss the return value of the body (possibly `None`) is stored
under that raw string. Returns (result, updated cache, store events). -/
def get_or_create_entity (st : Store) (cache : Cache) (name : String) :
    Option String × Cache × List Event :=
  match cacheFind cache name with
  | some r => (r, cache, [])
  | none =>
      let r := get_or_create_entity_body st name
      (r.1, (name, r.1) :: cache, r.2)

/-- An extracted snippet as `create_snippet` reads it.  `none` in `context`
or `event_date` models the dictionary key being absent (so that indexing
raises `KeyError`); `entities := none` models an absent key that
`snippet.get("entities", [])` defaults to the empty list.  Inside
`event_date`, `none` models a value that is absent or JSON `null` (falsy
under `.get`). -/
structure EventDate where
  human_readable : Option String
  date_start_iso : Option String
  date_end_iso : Option String
deriving DecidableEq, Repr

structure Snippet where
  context : Option String
  entities : Option (List String)
  event_date : Option EventDate
deriving DecidableEq, Repr

/-- The entity-resolution loop at the top of `create_snippet` (lines
238-243): resolve each name through the memoized resolver, keeping only
truthy ids. -/
def resolveEntities (st : Store) : Cache → List String → List String × Cache × List Event
  | cache, [] => ([], cache, [])
  | cache, n :: ns =>
      let r := get_or_create_entity st cache n
      let rest := resolveEntities st r.2.1 ns
      ((if truthy r.1 then [r.1.getD ""] else []) ++ rest.1, rest.2.1, r.2.2 ++ rest.2.2)

/-- Python exception classes that escape a function in this embedding. -/
inductive PyErr where
  | keyError (key : String)
  | otherError
deriving DecidableEq, Repr

/-- src/main.py `create_snippet(snippet, media_source)` (lines 237-289).
Resolves the entities of the snippet, builds the `properties` payload (a missing
`"context"` or `"event_date"` key raises `KeyError`, which nothing in the
function catches), includes each optional date field iff its value is
truthy, then calls `pages.create`; only `APIResponseError` is caught
(yielding `None`) — any other exception propagates as `Except.error`. -/
def snippet_properties (st : Store) (entities : List String) (ctx : String)
    (ed : EventDate) (media_source : String) : NoteProps :=
  { context := ctx
    source := media_source
    entities := entities
    addingDate := st.today
    eventDate := if truthy ed.human_readable then ed.human_readable else none
    startDate := if truthy ed.date_start_iso then ed.date_start_iso else none
    endDate := if truthy ed.date_end_iso then ed.date_end_iso else none }

def create_snippet (st : Store) (cache : Cache) (snippet : Snippet)
    (media_source : String) : Except PyErr (Option String) × Cache × List Event :=
  let r0 := resolveEntities st cache (snippet.entities.getD [])
  match snippet.context with
  | none => (Except.error (PyErr.keyError "context"), r0.2.1, r0.2.2)
  | some ctx =>
    match snippet.event_date with
    | none => (Except.error (PyErr.keyError "event_date"), r0.2.1, r0.2.2)
    | some ed =>
      let props : NoteProps := snippet_properties st r0.1 ctx ed media_source
      match st.noteCreate props with
      | NoteOutcome.ok respId =>
          (Except.ok (some respId), r0.2.1,
            r0.2.2 ++ [Event.noteCreate props (NoteOutcome.ok respId)])
      | NoteOutcome.apiError =>
          (Except.ok none, r0.2.1,
            r0.2.2 ++ [Event.noteCreate props NoteOutcome.apiError])
      | NoteOutcome.exn =>
          (Except.error PyErr.otherError, r0.2.1,
            r0.2.2 ++ [Event.noteCreate props NoteOutcome.exn])

/-- The input document as `create_media` reads it (the claims need no
missing-key behavior for the top-level document, so its fields are total). -/
structure MediaData where
  video_name : String
  channel_name : String
  url : String
  upload_date : String
  full_summary : String
  extracted_snippets : List Snippet
deriving DecidableEq, Repr

/-- The `for snippet in data["extracted_snippets"]: create_snippet(...)`
loop inside the `try` block of `create_media`: the first uncaught exception from
`create_snippet` aborts the loop and propagates. -/
def create_snippets_loop (st : Store) : Cache → List Snippet → String →
    Except PyErr Unit × Cache × List Event
  | cache, [], _ => (Except.ok (), cache, [])
  | cache, s :: rest, mid =>
      let r1 := create_snippet st cache s mid
      match r1.1 with
      | Except.error e => (Except.error e, r1.2.1, r1.2.2)
      | Except.ok _ =>
          let r2 := create_snippets_loop st r1.2.1 rest mid
          (r2.1, r2.2.1, r1.2.2 ++ r2.2.2)

/-- src/main.py `create_media(data)` (lines 187-234): resolve the author
(caller strips the name first), abort with `None` if the resolved id is
falsy, otherwise create the media page (summary chunked into children);
any exception there is caught and yields `None`.  On success run the
snippet loop — an exception escaping `create_snippet` is caught by the
enclosing generic `except Exception`, so the whole call yields `None` even
though the media page exists. -/
def media_properties (st : Store) (data : MediaData) (entity_id : String) :
    MediaProps :=
  { title := data.video_name
    mediaType := "Video"
    author := entity_id
    url := data.url
    publishingDate := data.upload_date
    addingDate := st.today
    status := "Inbox"
    children := prepare_summary_blocks data.full_summary }

def create_media (st : Store) (cache : Cache) (data : MediaData) :
    Option String × Cache × List Event :=
  let entity_name := pyStrip data.channel_name
  let r0 := get_or_create_entity st cache entity_name
  if truthy r0.1 then
    let props : MediaProps := media_properties st data (r0.1.getD "")
    match st.mediaCreate props with
    | none => (none, r0.2.1, r0.2.2 ++ [Event.mediaCreate props none])
    | some media_page_id =>
        let r1 := create_snippets_loop st r0.2.1 data.extracted_snippets media_page_id
        match r1.1 with
        | Except.error _ =>
            (none, r1.2.1,
              r0.2.2 ++ [Event.mediaCreate props (some media_page_id)] ++ r1.2.2)
        | Except.ok _ =>
            (some media_page_id, r1.2.1,
              r0.2.2 ++ [Event.mediaCreate props (some media_page_id)] ++ r1.2.2)
  else (none, r0.2.1, r0.2.2)

/-! Chunking lemmas (claim C7). -/

/-- Concatenating the chunks gives back the original character list. -/
theorem chunksAux_flatten (k : Nat) : (cs : List Char) → (chunksAux k cs).flatten = cs
  | [] => by simp [chunksAux]
  | c :: cs' => by
      have ih := chunksAux_flatten k (List.drop (k + 1) (c :: cs'))
      rw [chunksAux, List.flatten_cons, ih, List.take_append_drop]
termination_by cs => cs.length
decreasing_by simp; omega

/-- The number of chunks is the length divided by the chunk size, rounded up. -/
theorem chunksAux_length (k : Nat) :
    (cs : List Char) → (chunksAux k cs).length = (cs.length + k) / (k + 1)
  | [] => by simp [chunksAux, Nat.div_eq_of_lt (by omega : k < k + 1)]
  | c :: cs' => by
      have ih := chunksAux_length k (List.drop (k + 1) (c :: cs'))
      rw [chunksAux]
      simp only [List.length_cons, List.length_drop] at ih ⊢
      rw [ih]
      rcases le_or_lt cs'.length k with h | h
      · have h1 : cs'.length + 1 - (k + 1) = 0 := by omega
        rw [h1]
        rw [Nat.div_eq_of_lt (by omega : 0 + k < k + 1)]
        exact (Nat.div_eq_of_lt_le (by omega) (by omega)).symm
      · have h1 : cs'.length + 1 - (k + 1) + k = cs'.length := by omega
        have h2 : cs'.length + 1 + k = cs'.length + (k + 1) := by omega
        rw [h1, h2, Nat.add_div_right _ (by omega)]
termination_by cs => cs.length
decreasing_by simp; omega

theorem chunksAux_ne_nil (k : Nat) (c : Char) (cs : List Char) :
    chunksAux k (c :: cs) ≠ [] := by
  rw [chunksAux]; simp

/-- Every chunk except possibly the last has exactly the chunk size. -/
theorem chunksAux_dropLast (k : Nat) :
    (cs : List Char) → ∀ l ∈ (chunksAux k cs).dropLast, l.length = k + 1
  | [] => by simp [chunksAux]
  | c :: cs' => by
      intro l hl
      rw [chunksAux] at hl
      rcases hdrop : List.drop (k + 1) (c :: cs') with _ | ⟨d, ds⟩
      · rw [hdrop] at hl
        simp [chunksAux] at hl
      · rw [hdrop] at hl
        rw [List.dropLast_cons_of_ne_nil (chunksAux_ne_nil k d ds)] at hl
        rcases List.mem_cons.mp hl with rfl | hl'
        · have hlen : k + 1 ≤ (c :: cs').length := by
            by_contra hcon
            push_neg at hcon
            have hnil : List.drop (k + 1) (c :: cs') = [] :=
              List.drop_eq_nil_of_le (by omega)
            rw [hnil] at hdrop
            cases hdrop
          simp only [List.length_take]
          omega
        · have ih := chunksAux_dropLast k (List.drop (k + 1) (c :: cs'))
          rw [hdrop] at ih
          exact ih l hl'
termination_by cs => cs.length
decreasing_by simp; omega

theorem string_mk_append (a b : List Char) :
    String.mk a ++ String.mk b = String.mk (a ++ b) := rfl

theorem foldl_append_map_mk : ∀ (ls : List (List Char)) (acc : List Char),
    (ls.map String.mk).foldl (fun r s => r ++ s) (String.mk acc) =
      String.mk (acc ++ ls.flatten)
  | [], acc => by simp
  | l :: ls, acc => by
      simp only [List.map_cons, List.foldl_cons, List.flatten_cons]
      rw [string_mk_append, foldl_append_map_mk ls (acc ++ l), List.append_assoc]

theorem string_join_map_mk (ls : List (List Char)) :
    String.join (ls.map String.mk) = String.mk ls.flatten := by
  have h := foldl_append_map_mk ls []
  simpa [String.join] using h

theorem split_into_chunks_1900 (text : String) :
    split_into_chunks text 1900 = (chunksAux 1899 text.data).map String.mk := by
  simp [split_into_chunks]

/-- C7: for every text, concatenating the chunks produced by the
1900-character splitter reproduces the text exactly; the number of chunks
(and hence body blocks) is the length divided by 1900 rounded up (so 0
chunks for the empty text); every chunk except possibly the last has length
exactly 1900; and the body blocks carry the chunks in document order. -/
theorem chunking_round_trip (text : String) :
    String.join (split_into_chunks text 1900) = text ∧
    (split_into_chunks text 1900).length = (text.length + 1899) / 1900 ∧
    (∀ chunk ∈ (split_into_chunks text 1900).dropLast, chunk.length = 1900) ∧
    (prepare_summary_blocks text).map Block.content = split_into_chunks text 1900 ∧
    (text.length = 0 → split_into_chunks text 1900 = []) := by
  refine ⟨?_, ?_, ?_, ?_, ?_⟩
  · rw [split_into_chunks_1900, string_join_map_mk, chunksAux_flatten]
  · rw [split_into_chunks_1900, List.length_map, chunksAux_length]
    rfl
  · intro chunk hchunk
    rw [split_into_chunks_1900, ← List.map_dropLast] at hchunk
    obtain ⟨l, hl, rfl⟩ := List.mem_map.mp hchunk
    exact chunksAux_dropLast 1899 text.data l hl
  · simp only [prepare_summary_blocks, create_code_blocks, List.map_map]
    have hid : (Block.content ∘ fun chunk =>
        ({ obj := "block", type := "code", language := "markdown",
           content := chunk } : Block)) = id := by
      funext c
      rfl
    rw [hid, List.map_id]
  · intro h
    rw [split_into_chunks_1900]
    have hdata : text.data = [] := List.length_eq_zero.mp h
    rw [hdata]
    simp [chunksAux]

/-- C7 witness: the round trip evaluated at the empty text. -/
theorem chunking_round_trip_witness :
    split_into_chunks "" 1900 = [] ∧ String.join (split_into_chunks "" 1900) = "" :=
  ⟨(chunking_round_trip "").2.2.2.2 rfl, (chunking_round_trip "").1⟩

/-! Resolver lemmas (claims C1, C2, C9). -/

/-- Store events issued by the entity resolver (queries and creations on
the entities table only). -/
def isEntityEvent : Event → Bool
  | Event.entityQuery _ => true
  | Event.entityCreate _ _ => true
  | _ => false

/-- The resolver body issues no events, one query, or one query followed by
one creation — always on the stripped name. -/
theorem body_events_shape (st : Store) (name : String) :
    (get_or_create_entity_body st name).2 = [] ∨
    (get_or_create_entity_body st name).2 = [Event.entityQuery (pyStrip name)] ∨
    (get_or_create_entity_body st name).2 =
      [Event.entityQuery (pyStrip name),
       Event.entityCreate (pyStrip name) (st.entityCreate (pyStrip name))] := by
  simp only [get_or_create_entity_body]
  split
  · exact Or.inl rfl
  · split
    · exact Or.inr (Or.inl rfl)
    · exact Or.inr (Or.inr rfl)
    · exact Or.inr (Or.inr rfl)

theorem body_empty_name (st : Store) (name : String) (h : pyStrip name = "") :
    get_or_create_entity_body st name = (none, []) := by
  simp [get_or_create_entity_body, h]

theorem body_query_one (st : Store) (name : String) (h : pyStrip name ≠ "") :
    countQueries (get_or_create_entity_body st name).2 = 1 := by
  simp only [get_or_create_entity_body]
  rw [if_neg h]
  split <;> simp [countQueries]

theorem body_counts (st : Store) (name : String) :
    countQueries (get_or_create_entity_body st name).2 ≤ 1 ∧
    countEntityCreates (get_or_create_entity_body st name).2 ≤ 1 := by
  rcases body_events_shape st name with h | h | h <;>
    rw [h] <;> simp [countQueries, countEntityCreates]

theorem body_entity_only (st : Store) (name : String) :
    ∀ e ∈ (get_or_create_entity_body st name).2, isEntityEvent e = true := by
  rcases body_events_shape st name with h | h | h <;>
    rw [h] <;> simp [isEntityEvent]

theorem resolve_entity_only (st : Store) (cache : Cache) (name : String) :
    ∀ e ∈ (get_or_create_entity st cache name).2.2, isEntityEvent e = true := by
  unfold get_or_create_entity
  split
  · simp
  · simpa using body_entity_only st name

/-- The run invariant of the `functools.cache` table: every entry holds
exactly the value the (deterministic) resolver body computes for its key.
It holds of the empty cache a run starts from and is preserved by every
resolver call. -/
def CacheWF (st : Store) (cache : Cache) : Prop :=
  ∀ p ∈ cache, p.2 = (get_or_create_entity_body st p.1).1

theorem cacheWF_nil (st : Store) : CacheWF st ([] : Cache) := by
  intro p hp
  cases hp

theorem cacheWF_find {st : Store} {cache : Cache} {name : String}
    {r : Option String} (hWF : CacheWF st cache)
    (hf : cacheFind cache name = some r) :
    r = (get_or_create_entity_body st name).1 := by
  induction cache with
  | nil => cases hf
  | cons p rest ih =>
      rw [cacheFind] at hf
      by_cases h : p.1 = name
      · rw [if_pos h] at hf
        cases hf
        rw [hWF p (List.mem_cons_self p rest), h]
      · rw [if_neg h] at hf
        exact ih (fun q hq => hWF q (List.mem_cons_of_mem p hq)) hf

theorem cacheWF_resolve (st : Store) {cache : Cache} (hWF : CacheWF st cache)
    (n : String) : CacheWF st (get_or_create_entity st cache n).2.1 := by
  unfold get_or_create_entity
  split
  · exact hWF
  · intro p hp
    rcases List.mem_cons.mp hp with rfl | hp'
    · rfl
    · exact hWF p hp'

/-- C2: within one run, resolving the identical input string twice serves
the second call entirely from the memoization cache (it adds no store
events) and returns the result of the first call; the first call itself makes at
most one lookup and at most one create, and exactly one lookup when the
name is uncached and does not strip to empty. -/
theorem idempotent_resolution (st : Store) (cache : Cache) (n : String) :
    (get_or_create_entity st (get_or_create_entity st cache n).2.1 n).1 =
      (get_or_create_entity st cache n).1 ∧
    (get_or_create_entity st (get_or_create_entity st cache n).2.1 n).2.2 = [] ∧
    countQueries (get_or_create_entity st cache n).2.2 ≤ 1 ∧
    countEntityCreates (get_or_create_entity st cache n).2.2 ≤ 1 ∧
    (cacheFind cache n = none → pyStrip n ≠ "" →
      countQueries (get_or_create_entity st cache n).2.2 = 1) := by
  cases hf : cacheFind cache n with
  | some r =>
      have h1 : get_or_create_entity st cache n = (r, cache, []) := by
        unfold get_or_create_entity
        rw [hf]
      refine ⟨by simp only [h1], by simp only [h1], ?_, ?_, ?_⟩
      · simp only [h1]
        simp [countQueries]
      · simp only [h1]
        simp [countEntityCreates]
      · intro h
        exact Option.noConfusion h
  | none =>
      have h1 : get_or_create_entity st cache n =
          ((get_or_create_entity_body st n).1,
           (n, (get_or_create_entity_body st n).1) :: cache,
           (get_or_create_entity_body st n).2) := by
        unfold get_or_create_entity
        rw [hf]
      have hself : cacheFind ((n, (get_or_create_entity_body st n).1) :: cache) n =
          some (get_or_create_entity_body st n).1 := by
        simp [cacheFind]
      have h2 : get_or_create_entity st
            ((n, (get_or_create_entity_body st n).1) :: cache) n =
          ((get_or_create_entity_body st n).1,
           (n, (get_or_create_entity_body st n).1) :: cache, []) := by
        unfold get_or_create_entity
        rw [hself]
      refine ⟨?_, ?_, ?_, ?_, ?_⟩
      · simp only [h1, h2]
      · simp only [h1, h2]
      · simp only [h1]
        exact (body_counts st n).1
      · simp only [h1]
        exact (body_counts st n).2
      · intro _ h
        simp only [h1]
        exact body_query_one st n h

/-- A concrete store for witnesses: lookups succeed but find nothing,
creations succeed and return an id derived from the name, media and note
creations succeed. -/
def demoStore : Store :=
  { entityQuery := fun _ => some []
    entityCreate := fun n => some ("id-" ++ n)
    mediaCreate := fun _ => some "media-1"
    noteCreate := fun p => NoteOutcome.ok ("note-" ++ p.context)
    today := "2026-10-12" }

/-- C2 witness: the idempotent-resolution theorem instantiated at the fresh
nonempty name "Alice" on the empty cache. -/
theorem idempotent_resolution_witness :
    (get_or_create_entity demoStore
        (get_or_create_entity demoStore [] "Alice").2.1 "Alice").1 =
      (get_or_create_entity demoStore [] "Alice").1 ∧
    (get_or_create_entity demoStore
        (get_or_create_entity demoStore [] "Alice").2.1 "Alice").2.2 = [] ∧
    countQueries (get_or_create_entity demoStore [] "Alice").2.2 ≤ 1 ∧
    countEntityCreates (get_or_create_entity demoStore [] "Alice").2.2 ≤ 1 ∧
    (cacheFind [] "Alice" = none → pyStrip "Alice" ≠ "" →
      countQueries (get_or_create_entity demoStore [] "Alice").2.2 = 1) :=
  idempotent_resolution demoStore [] "Alice"

/-- C9: a name that strips to the empty string (including "" and
whitespace-only strings) resolves to null without any store lookup or
create call, in any cache state reachable in a run (`CacheWF`). -/
theorem empty_name_short_circuit (st : Store) (cache : Cache)
    (hWF : CacheWF st cache) (name : String) (hname : pyStrip name = "") :
    (get_or_create_entity st cache name).1 = none ∧
    (get_or_create_entity st cache name).2.2 = [] := by
  have hbody : get_or_create_entity_body st name = (none, []) :=
    body_empty_name st name hname
  cases hf : cacheFind cache name with
  | some r =>
      have h1 : get_or_create_entity st cache name = (r, cache, []) := by
        unfold get_or_create_entity
        rw [hf]
      have hr : r = none := by
        have := cacheWF_find hWF hf
        rw [hbody] at this
        exact this
      rw [h1, hr]
      exact ⟨rfl, rfl⟩
  | none =>
      have h1 : get_or_create_entity st cache name =
          ((get_or_create_entity_body st name).1,
           (name, (get_or_create_entity_body st name).1) :: cache,
           (get_or_create_entity_body st name).2) := by
        unfold get_or_create_entity
        rw [hf]
      rw [h1, hbody]
      exact ⟨rfl, rfl⟩

/-- C9 witness: the whitespace-only name "   " on the empty cache. -/
theorem empty_name_short_circuit_witness :
    (get_or_create_entity demoStore [] "   ").1 = none ∧
    (get_or_create_entity demoStore [] "   ").2.2 = [] :=
  empty_name_short_circuit demoStore [] (cacheWF_nil demoStore) "   " (by decide)

/-- C1 counterexample: the `functools.cache` key is the raw argument
string, not the stripped one, so resolving "  Alice  " and then "Alice"
misses the cache twice: the combined trace holds two store lookups (and
here two creations, since the query of this store finds nothing both times), and
the final cache holds two separate entries — not the single store
interaction and single shared cache entry the claim states. -/
theorem normalization_memoization_cex :
    countQueries ((get_or_create_entity demoStore [] "  Alice  ").2.2 ++
        (get_or_create_entity demoStore
          (get_or_create_entity demoStore [] "  Alice  ").2.1 "Alice").2.2) = 2 ∧
    countEntityCreates ((get_or_create_entity demoStore [] "  Alice  ").2.2 ++
        (get_or_create_entity demoStore
          (get_or_create_entity demoStore [] "  Alice  ").2.1 "Alice").2.2) = 2 ∧
    (get_or_create_entity demoStore
        (get_or_create_entity demoStore [] "  Alice  ").2.1 "Alice").2.1.length = 2 := by
  decide

/-- C1 amended: memoization is keyed on the raw, pre-normalization input
string, so `resolve("  Alice  ")` followed by `resolve("Alice")` occupies
two distinct cache entries and issues two store lookups (one per call, with
up to one creation each); both calls do strip the name before contacting
the store, so each runs the same resolver body on "Alice" and the two calls
return the same result. -/
theorem normalization_memoization_amended (st : Store) :
    (get_or_create_entity st
        (get_or_create_entity st [] "  Alice  ").2.1 "Alice").1 =
      (get_or_create_entity st [] "  Alice  ").1 ∧
    (get_or_create_entity st [] "  Alice  ").2.2 =
      (get_or_create_entity_body st "Alice").2 ∧
    (get_or_create_entity st
        (get_or_create_entity st [] "  Alice  ").2.1 "Alice").2.2 =
      (get_or_create_entity_body st "Alice").2 ∧
    countQueries ((get_or_create_entity st [] "  Alice  ").2.2 ++
        (get_or_create_entity st
          (get_or_create_entity st [] "  Alice  ").2.1 "Alice").2.2) = 2 ∧
    (get_or_create_entity st
        (get_or_create_entity st [] "  Alice  ").2.1 "Alice").2.1 =
      [("Alice", (get_or_create_entity_body st "Alice").1),
       ("  Alice  ", (get_or_create_entity_body st "Alice").1)] := by
  have hbody : get_or_create_entity_body st "  Alice  " =
      get_or_create_entity_body st "Alice" := by
    unfold get_or_create_entity_body
    rw [show pyStrip "  Alice  " = pyStrip "Alice" from by decide]
  have h1 : get_or_create_entity st [] "  Alice  " =
      ((get_or_create_entity_body st "Alice").1,
       [("  Alice  ", (get_or_create_entity_body st "Alice").1)],
       (get_or_create_entity_body st "Alice").2) := by
    unfold get_or_create_entity
    rw [show cacheFind [] "  Alice  " = none from rfl, hbody]
  have hfind : cacheFind
      [("  Alice  ", (get_or_create_entity_body st "Alice").1)] "Alice" = none := by
    simp only [cacheFind]
    rw [if_neg (by decide)]
  have h2 : get_or_create_entity st
        [("  Alice  ", (get_or_create_entity_body st "Alice").1)] "Alice" =
      ((get_or_create_entity_body st "Alice").1,
       [("Alice", (get_or_create_entity_body st "Alice").1),
        ("  Alice  ", (get_or_create_entity_body st "Alice").1)],
       (get_or_create_entity_body st "Alice").2) := by
    unfold get_or_create_entity
    rw [hfind]
  refine ⟨?_, ?_, ?_, ?_, ?_⟩
  · simp only [h1, h2]
  · simp only [h1]
  · simp only [h1, h2]
  · simp only [h1, h2]
    rw [countQueries, List.countP_append]
    have hq := body_query_one st "Alice" (by decide)
    rw [countQueries] at hq
    omega
  · simp only [h1, h2]

/-! Snippet-creation lemmas (claims C3, C4, C5, C6, C10). -/

theorem resolveEntities_entity_only (st : Store) (cache : Cache)
    (ns : List String) :
    ∀ e ∈ (resolveEntities st cache ns).2.2, isEntityEvent e = true := by
  induction ns generalizing cache with
  | nil =>
      intro e he
      simp [resolveEntities] at he
  | cons n ns ih =>
      intro e he
      simp only [resolveEntities] at he
      rw [List.mem_append] at he
      rcases he with he | he
      · exact resolve_entity_only st cache n e he
      · exact ih _ e he

theorem entity_only_counts {evs : List Event}
    (h : ∀ e ∈ evs, isEntityEvent e = true) :
    countMediaCreates evs = 0 ∧ countNoteCreates evs = 0 ∧
    notePayloads evs = [] ∧ noteResults evs = [] ∧ mediaResults evs = [] := by
  refine ⟨?_, ?_, ?_, ?_, ?_⟩
  · rw [countMediaCreates, List.countP_eq_zero]
    intro e he
    have he' := h e he
    cases e <;> simp_all [isEntityEvent]
  · rw [countNoteCreates, List.countP_eq_zero]
    intro e he
    have he' := h e he
    cases e <;> simp_all [isEntityEvent]
  · rw [notePayloads, List.filterMap_eq_nil_iff]
    intro e he
    have he' := h e he
    cases e <;> simp_all [isEntityEvent]
  · rw [noteResults, List.filterMap_eq_nil_iff]
    intro e he
    have he' := h e he
    cases e <;> simp_all [isEntityEvent]
  · rw [mediaResults, List.filterMap_eq_nil_iff]
    intro e he
    have he' := h e he
    cases e <;> simp_all [isEntityEvent]

theorem truthy_if_filter (o : Option String) :
    (if truthy o then o else none) = o.filter fun v => v != "" := by
  cases o with
  | none => simp [truthy, Option.filter]
  | some s =>
      by_cases h : s = "" <;> simp [truthy, Option.filter, h]

/-- Evaluation of `create_snippet` on a snippet that has its `context` and
`event_date` keys: one `pages.create` call is made with the payload
`snippet_properties`, after the resolver events; the answer of the store
determines the returned value. -/
theorem create_snippet_shape (st : Store) (cache : Cache) (s : Snippet)
    (ms ctx : String) (ed : EventDate)
    (hctx : s.context = some ctx) (hed : s.event_date = some ed) :
    create_snippet st cache s ms =
      ((match st.noteCreate (snippet_properties st
            (resolveEntities st cache (s.entities.getD [])).1 ctx ed ms) with
        | NoteOutcome.ok respId => Except.ok (some respId)
        | NoteOutcome.apiError => Except.ok none
        | NoteOutcome.exn => Except.error PyErr.otherError),
       (resolveEntities st cache (s.entities.getD [])).2.1,
       (resolveEntities st cache (s.entities.getD [])).2.2 ++
         [Event.noteCreate
            (snippet_properties st
              (resolveEntities st cache (s.entities.getD [])).1 ctx ed ms)
            (st.noteCreate (snippet_properties st
              (resolveEntities st cache (s.entities.getD [])).1 ctx ed ms))]) := by
  simp only [create_snippet, hctx, hed]
  cases hnc : st.noteCreate (snippet_properties st
      (resolveEntities st cache (s.entities.getD [])).1 ctx ed ms) <;> rfl

theorem countNoteCreates_append (a b : List Event) :
    countNoteCreates (a ++ b) = countNoteCreates a + countNoteCreates b := by
  simp [countNoteCreates, List.countP_append]

theorem countNoteCreates_one (p : NoteProps) (o : NoteOutcome) :
    countNoteCreates [Event.noteCreate p o] = 1 := by
  simp [countNoteCreates]

theorem notePayloads_append (a b : List Event) :
    notePayloads (a ++ b) = notePayloads a ++ notePayloads b := by
  simp [notePayloads]

theorem notePayloads_one (p : NoteProps) (o : NoteOutcome) :
    notePayloads [Event.noteCreate p o] = [p] := by
  simp [notePayloads]

theorem noteResults_append (a b : List Event) :
    noteResults (a ++ b) = noteResults a ++ noteResults b := by
  simp [noteResults]

theorem noteResults_one (p : NoteProps) (o : NoteOutcome) :
    noteResults [Event.noteCreate p o] = [o] := by
  simp [noteResults]

/-- A store whose note creation always fails with the typed validation
error (`APIResponseError`); entity lookups find nothing, entity and media
creations succeed. -/
def failNoteStore : Store :=
  { entityQuery := fun _ => some []
    entityCreate := fun n => some ("id-" ++ n)
    mediaCreate := fun _ => some "media-1"
    noteCreate := fun _ => NoteOutcome.apiError
    today := "2026-10-12" }

/-- A snippet carrying both ISO date fields. -/
def snippetWithDates : Snippet :=
  { context := some "ctx"
    entities := some []
    event_date := some
      { human_readable := some "May 2024"
        date_start_iso := some "2024-05-01"
        date_end_iso := some "2024-05-02" } }

/-- C3 counterexample: when note creation fails with the client-validation
error, exactly one create call is made and null is returned — there is no
second attempt with the date properties removed (the single payload sent
still carried `Start Date`). -/
theorem retry_on_validation_cex :
    countNoteCreates (create_snippet failNoteStore [] snippetWithDates "m1").2.2
      = 1 ∧
    (create_snippet failNoteStore [] snippetWithDates "m1").1 = Except.ok none ∧
    (notePayloads (create_snippet failNoteStore [] snippetWithDates "m1").2.2).map
        NoteProps.startDate = [some "2024-05-01"] :=
  ⟨by decide, rfl, by decide⟩

/-- C3 amended: `create_snippet` issues exactly one note-create call; a
typed API error is caught and yields null with no retry, while any other
exception class from the create call propagates out of `create_snippet`. -/
theorem retry_on_validation_amended (st : Store) (cache : Cache) (s : Snippet)
    (ms ctx : String) (ed : EventDate)
    (hctx : s.context = some ctx) (hed : s.event_date = some ed) :
    countNoteCreates (create_snippet st cache s ms).2.2 = 1 ∧
    (noteResults (create_snippet st cache s ms).2.2 = [NoteOutcome.apiError] →
      (create_snippet st cache s ms).1 = Except.ok none) ∧
    (noteResults (create_snippet st cache s ms).2.2 = [NoteOutcome.exn] →
      (create_snippet st cache s ms).1 = Except.error PyErr.otherError) := by
  have hsh := create_snippet_shape st cache s ms ctx ed hctx hed
  obtain ⟨hm0, hn0, hp0, hr0, hmr0⟩ :=
    entity_only_counts (resolveEntities_entity_only st cache (s.entities.getD []))
  simp only [hsh]
  refine ⟨?_, ?_, ?_⟩
  · rw [countNoteCreates_append, hn0, countNoteCreates_one]
  · intro h
    rw [noteResults_append, hr0, noteResults_one] at h
    simp at h
    rw [h]
  · intro h
    rw [noteResults_append, hr0, noteResults_one] at h
    simp at h
    rw [h]

/-- C3 witness: the amended behavior at a concrete always-failing store. -/
theorem retry_on_validation_amended_witness :
    countNoteCreates (create_snippet failNoteStore [] snippetWithDates "m1").2.2
      = 1 ∧
    (noteResults (create_snippet failNoteStore [] snippetWithDates "m1").2.2 =
        [NoteOutcome.apiError] →
      (create_snippet failNoteStore [] snippetWithDates "m1").1 = Except.ok none) ∧
    (noteResults (create_snippet failNoteStore [] snippetWithDates "m1").2.2 =
        [NoteOutcome.exn] →
      (create_snippet failNoteStore [] snippetWithDates "m1").1 =
        Except.error PyErr.otherError) :=
  retry_on_validation_amended failNoteStore [] snippetWithDates "m1" "ctx"
    { human_readable := some "May 2024"
      date_start_iso := some "2024-05-01"
      date_end_iso := some "2024-05-02" } rfl rfl

/-- A snippet whose `date_start_iso` is not a valid calendar date and whose
`human_readable` is the literal string "null". -/
def badDateSnippet : Snippet :=
  { context := some "c4"
    entities := some []
    event_date := some
      { human_readable := some "null"
        date_start_iso := some "2024-13-40"
        date_end_iso := none } }

/-- C4 counterexample: the invalid calendar date "2024-13-40" is not
dropped — the creation payload carries it verbatim as `Start Date` — and a
`human_readable` equal to the literal string "null" is still included as
rich text. -/
theorem date_projection_cex :
    (notePayloads (create_snippet demoStore [] badDateSnippet "m1").2.2).map
        NoteProps.startDate = [some "2024-13-40"] ∧
    (notePayloads (create_snippet demoStore [] badDateSnippet "m1").2.2).map
        NoteProps.eventDate = [some "null"] := by
  decide

/-- C4 amended: each of `date_start_iso`, `date_end_iso` and
`human_readable` appears in the note payload iff it is present and
non-empty (Python truthiness of the `.get` result), and it is passed
through verbatim; there is no "null"-string filtering and no YYYY-MM-DD
calendar validation for any of them. -/
theorem date_projection_amended (st : Store) (cache : Cache) (s : Snippet)
    (ms ctx : String) (ed : EventDate)
    (hctx : s.context = some ctx) (hed : s.event_date = some ed) :
    (notePayloads (create_snippet st cache s ms).2.2).map NoteProps.startDate =
      [ed.date_start_iso.filter fun v => v != ""] ∧
    (notePayloads (create_snippet st cache s ms).2.2).map NoteProps.endDate =
      [ed.date_end_iso.filter fun v => v != ""] ∧
    (notePayloads (create_snippet st cache s ms).2.2).map NoteProps.eventDate =
      [ed.human_readable.filter fun v => v != ""] := by
  have hsh := create_snippet_shape st cache s ms ctx ed hctx hed
  obtain ⟨hm0, hn0, hp0, hr0, hmr0⟩ :=
    entity_only_counts (resolveEntities_entity_only st cache (s.entities.getD []))
  simp only [hsh]
  rw [notePayloads_append, hp0, notePayloads_one]
  refine ⟨?_, ?_, ?_⟩ <;> simp [snippet_properties, truthy_if_filter]

/-- C4 witness: the amended projection at the concrete bad-date snippet —
"2024-13-40" and the literal "null" are both truthy, hence included. -/
theorem date_projection_amended_witness :
    (notePayloads (create_snippet demoStore [] badDateSnippet "m1").2.2).map
        NoteProps.startDate = [(some "2024-13-40").filter fun v => v != ""] ∧
    (notePayloads (create_snippet demoStore [] badDateSnippet "m1").2.2).map
        NoteProps.endDate = [(none : Option String).filter fun v => v != ""] ∧
    (notePayloads (create_snippet demoStore [] badDateSnippet "m1").2.2).map
        NoteProps.eventDate = [(some "null").filter fun v => v != ""] :=
  date_projection_amended demoStore [] badDateSnippet "m1" "c4"
    { human_readable := some "null"
      date_start_iso := some "2024-13-40"
      date_end_iso := none } rfl rfl

/-- A snippet whose context is 3000 characters long. -/
def longSnippet : Snippet :=
  { context := some (String.mk (List.replicate 3000 'a'))
    entities := some []
    event_date := some
      { human_readable := none, date_start_iso := none, date_end_iso := none } }

/-- C5 counterexample: a 3000-character context is sent verbatim as the
title of the note — the title is not the first 1900 characters plus a marker,
and the snippet payload carries no overflow children at all. -/
theorem title_truncation_cex :
    (notePayloads (create_snippet demoStore [] longSnippet "m1").2.2).map
        (fun p => p.context.length) = [3000] ∧
    (notePayloads (create_snippet demoStore [] longSnippet "m1").2.2).map
        NoteProps.context = [String.mk (List.replicate 3000 'a')] := by
  have hsh := create_snippet_shape demoStore [] longSnippet "m1"
    (String.mk (List.replicate 3000 'a'))
    { human_readable := none, date_start_iso := none, date_end_iso := none }
    rfl rfl
  simp only [hsh]
  rw [notePayloads_append,
    show notePayloads
      (resolveEntities demoStore [] (longSnippet.entities.getD [])).2.2 = []
      from rfl,
    notePayloads_one]
  refine ⟨?_, ?_⟩
  · rw [List.nil_append]
    simp only [List.map_cons, List.map_nil, snippet_properties]
    rw [show (String.mk (List.replicate 3000 'a')).length =
        (List.replicate 3000 'a').length from rfl]
    rw [List.length_replicate]
  · rw [List.nil_append]
    simp only [List.map_cons, List.map_nil, snippet_properties]

/-- C5 amended: the context of the snippet becomes the title of the note verbatim
regardless of its length; no truncation is applied and no overflow body
blocks are produced. -/
theorem title_truncation_amended (st : Store) (cache : Cache) (s : Snippet)
    (ms ctx : String) (ed : EventDate)
    (hctx : s.context = some ctx) (hed : s.event_date = some ed) :
    (notePayloads (create_snippet st cache s ms).2.2).map NoteProps.context =
      [ctx] := by
  have hsh := create_snippet_shape st cache s ms ctx ed hctx hed
  obtain ⟨hm0, hn0, hp0, hr0, hmr0⟩ :=
    entity_only_counts (resolveEntities_entity_only st cache (s.entities.getD []))
  simp only [hsh]
  rw [notePayloads_append, hp0, notePayloads_one]
  simp [snippet_properties]

/-- C5 witness: the amended statement at the 3000-character context. -/
theorem title_truncation_amended_witness :
    (notePayloads (create_snippet demoStore [] longSnippet "m1").2.2).map
        NoteProps.context = [String.mk (List.replicate 3000 'a')] :=
  title_truncation_amended demoStore [] longSnippet "m1"
    (String.mk (List.replicate 3000 'a'))
    { human_readable := none, date_start_iso := none, date_end_iso := none }
    rfl rfl

/-! Media-creation lemmas (claims C6, C8, C10). -/

theorem countMediaCreates_append (a b : List Event) :
    countMediaCreates (a ++ b) = countMediaCreates a + countMediaCreates b := by
  simp [countMediaCreates, List.countP_append]

theorem countNoteCreates_media (p : MediaProps) (r : Option String) :
    countNoteCreates [Event.mediaCreate p r] = 0 := by
  simp [countNoteCreates]

/-- C8: if author resolution yields a falsy id (null or the empty string),
`create_media` returns null and its trace holds no media-create call and no
note-create call — only the entity events of the resolver. -/
theorem author_failure_blocks_media (st : Store) (cache : Cache)
    (data : MediaData)
    (h : truthy (get_or_create_entity st cache
      (pyStrip data.channel_name)).1 = false) :
    (create_media st cache data).1 = none ∧
    countMediaCreates (create_media st cache data).2.2 = 0 ∧
    countNoteCreates (create_media st cache data).2.2 = 0 := by
  obtain ⟨hm0, hn0, _, _, _⟩ :=
    entity_only_counts (resolve_entity_only st cache (pyStrip data.channel_name))
  have hcm : create_media st cache data =
      (none, (get_or_create_entity st cache (pyStrip data.channel_name)).2.1,
       (get_or_create_entity st cache (pyStrip data.channel_name)).2.2) := by
    simp only [create_media]
    rw [if_neg (by simp [h])]
  rw [hcm]
  exact ⟨rfl, hm0, hn0⟩

/-- A store where entity creation fails, so resolving an unknown name
yields null. -/
def failEntityStore : Store :=
  { entityQuery := fun _ => some []
    entityCreate := fun _ => none
    mediaCreate := fun _ => some "media-1"
    noteCreate := fun p => NoteOutcome.ok ("note-" ++ p.context)
    today := "2026-10-12" }

/-- A snippet with the given context and no entities or dates. -/
def simpleSnippet (c : String) : Snippet :=
  { context := some c
    entities := some []
    event_date := some
      { human_readable := none, date_start_iso := none, date_end_iso := none } }

/-- A three-snippet document. -/
def threeSnippetData : MediaData :=
  { video_name := "Video"
    channel_name := "Chan"
    url := "http://example.com/v"
    upload_date := "2026-01-01"
    full_summary := ""
    extracted_snippets :=
      [simpleSnippet "one", simpleSnippet "two", simpleSnippet "three"] }

/-- C8 witness: author resolution fails on a store whose entity creation
fails. -/
theorem author_failure_blocks_media_witness :
    (create_media failEntityStore [] threeSnippetData).1 = none ∧
    countMediaCreates (create_media failEntityStore [] threeSnippetData).2.2 = 0 ∧
    countNoteCreates (create_media failEntityStore [] threeSnippetData).2.2 = 0 :=
  author_failure_blocks_media failEntityStore [] threeSnippetData (by decide)

/-- If the store fails note creations only with the typed (caught) error
and every snippet has its `context` and `event_date` keys, the snippet loop
runs to completion, issuing exactly one note-create call per snippet. -/
theorem create_snippets_loop_total (st : Store)
    (hnc : ∀ p, st.noteCreate p ≠ NoteOutcome.exn) :
    ∀ (snips : List Snippet) (cache : Cache) (mid : String),
      (∀ s ∈ snips, s.context.isSome ∧ s.event_date.isSome) →
      (∃ u, (create_snippets_loop st cache snips mid).1 = Except.ok u) ∧
      countNoteCreates (create_snippets_loop st cache snips mid).2.2 =
        snips.length := by
  intro snips
  induction snips with
  | nil =>
      intro cache mid hs
      exact ⟨⟨(), rfl⟩, by simp [create_snippets_loop, countNoteCreates]⟩
  | cons s rest ih =>
      intro cache mid hs
      obtain ⟨hc, hb⟩ := hs s (List.mem_cons_self s rest)
      obtain ⟨ctx, hctx⟩ := Option.isSome_iff_exists.mp hc
      obtain ⟨ed, hed⟩ := Option.isSome_iff_exists.mp hb
      have hsh := create_snippet_shape st cache s mid ctx ed hctx hed
      obtain ⟨hm0, hn0, hp0, hr0, hmr0⟩ := entity_only_counts
        (resolveEntities_entity_only st cache (s.entities.getD []))
      simp only [create_snippets_loop, hsh]
      cases hvc : st.noteCreate (snippet_properties st
          (resolveEntities st cache (s.entities.getD [])).1 ctx ed mid) with
      | ok respId =>
          obtain ⟨⟨u, hu⟩, hcount⟩ := ih _ mid (fun q hq => hs q (List.mem_cons_of_mem s hq))
          refine ⟨⟨u, hu⟩, ?_⟩
          rw [countNoteCreates_append, countNoteCreates_append, hn0,
            countNoteCreates_one, hcount]
          simp [List.length_cons]
          omega
      | apiError =>
          obtain ⟨⟨u, hu⟩, hcount⟩ := ih _ mid (fun q hq => hs q (List.mem_cons_of_mem s hq))
          refine ⟨⟨u, hu⟩, ?_⟩
          rw [countNoteCreates_append, countNoteCreates_append, hn0,
            countNoteCreates_one, hcount]
          simp [List.length_cons]
          omega
      | exn => exact absurd hvc (hnc _)

/-- C6: for a document whose author resolves and whose media create
succeeds, when the store fails note creations only with the typed (caught)
validation error and every snippet has its keys, `create_media` still
returns the media id and issues one note-create call per snippet — an
individual note failure aborts neither the remaining snippets nor the
return value. -/
theorem snippet_failure_isolation (st : Store) (cache : Cache)
    (data : MediaData)
    (hauth : truthy (get_or_create_entity st cache
      (pyStrip data.channel_name)).1 = true)
    (hmedia : ∀ p, (st.mediaCreate p).isSome = true)
    (hnc : ∀ p, st.noteCreate p ≠ NoteOutcome.exn)
    (hsnips : ∀ s ∈ data.extracted_snippets,
      s.context.isSome ∧ s.event_date.isSome) :
    (create_media st cache data).1.isSome = true ∧
    countNoteCreates (create_media st cache data).2.2 =
      data.extracted_snippets.length := by
  obtain ⟨hm0, hn0, _, _, _⟩ :=
    entity_only_counts (resolve_entity_only st cache (pyStrip data.channel_name))
  obtain ⟨mid, hmid⟩ := Option.isSome_iff_exists.mp (hmedia
    (media_properties st data
      ((get_or_create_entity st cache (pyStrip data.channel_name)).1.getD "")))
  obtain ⟨⟨u, hu⟩, hcount⟩ := create_snippets_loop_total st hnc
    data.extracted_snippets
    (get_or_create_entity st cache (pyStrip data.channel_name)).2.1 mid hsnips
  simp only [create_media, if_pos hauth, hmid, hu]
  constructor
  · rfl
  · rw [countNoteCreates_append, countNoteCreates_append, hn0,
      countNoteCreates_media, hcount]
    omega

/-- Store for the C6 witness: the note for context "two" always fails with
the typed validation error; everything else succeeds. -/
def noteTwoFailStore : Store :=
  { entityQuery := fun _ => some []
    entityCreate := fun n => some ("id-" ++ n)
    mediaCreate := fun _ => some "media-1"
    noteCreate := fun p =>
      if p.context = "two" then NoteOutcome.apiError
      else NoteOutcome.ok ("note-" ++ p.context)
    today := "2026-10-12" }

/-- C6 witness: three snippets where note #2 always fails validation — the
media id is still returned, all three creates are attempted, and notes #1
and #3 succeed. -/
theorem snippet_failure_isolation_witness :
    (create_media noteTwoFailStore [] threeSnippetData).1.isSome = true ∧
    countNoteCreates (create_media noteTwoFailStore [] threeSnippetData).2.2
      = 3 ∧
    noteResults (create_media noteTwoFailStore [] threeSnippetData).2.2 =
      [NoteOutcome.ok "note-one", NoteOutcome.apiError,
       NoteOutcome.ok "note-three"] ∧
    (create_media noteTwoFailStore [] threeSnippetData).1 = some "media-1" := by
  have hnc : ∀ p, noteTwoFailStore.noteCreate p ≠ NoteOutcome.exn := by
    intro p h
    revert h
    simp only [noteTwoFailStore]
    split <;> simp
  have h := snippet_failure_isolation noteTwoFailStore [] threeSnippetData
    (by decide) (fun p => rfl) hnc (by decide)
  exact ⟨h.1, h.2, by decide, by decide⟩

/-- Store for claim C10: note creation for context "two" raises a
non-`APIResponseError` exception (e.g. a transport error); everything else
succeeds. -/
def exnNoteStore : Store :=
  { entityQuery := fun _ => some []
    entityCreate := fun n => some ("id-" ++ n)
    mediaCreate := fun _ => some "media-1"
    noteCreate := fun p =>
      if p.context = "two" then NoteOutcome.exn
      else NoteOutcome.ok ("note-" ++ p.context)
    today := "2026-10-12" }

/-- A three-snippet document whose second snippet lacks the `"context"`
key. -/
def missingContextData : MediaData :=
  { video_name := "Video"
    channel_name := "Chan"
    url := "http://example.com/v"
    upload_date := "2026-01-01"
    full_summary := ""
    extracted_snippets :=
      [simpleSnippet "one",
       { context := none
         entities := some []
         event_date := some
           { human_readable := none, date_start_iso := none,
             date_end_iso := none } },
       simpleSnippet "three"] }

/-- C10: `create_snippet` catches only the typed API error.  A snippet
whose dict lacks the `"context"` key makes `create_snippet` raise
`KeyError`, which propagates into the generic handler of `create_media`: the
whole call returns null even though the media-create call already succeeded
(its result is in the trace), and the later snippet is never attempted
(only one note-create call happens).  A non-typed store exception during
the note create behaves the same way. -/
theorem uncaught_snippet_exception :
    (create_snippet demoStore []
        { context := none
          entities := some []
          event_date := some
            { human_readable := none, date_start_iso := none,
              date_end_iso := none } } "m1").1 =
      Except.error (PyErr.keyError "context") ∧
    (create_media demoStore [] missingContextData).1 = none ∧
    mediaResults (create_media demoStore [] missingContextData).2.2 =
      [some "media-1"] ∧
    countNoteCreates (create_media demoStore [] missingContextData).2.2 = 1 ∧
    (create_media exnNoteStore [] threeSnippetData).1 = none ∧
    mediaResults (create_media exnNoteStore [] threeSnippetData).2.2 =
      [some "media-1"] ∧
    countNoteCreates (create_media exnNoteStore [] threeSnippetData).2.2 = 2 := by
  refine ⟨rfl, rfl, by decide, by decide, rfl, by decide, by decide⟩
